import Mathlib

set_option maxRecDepth 1000000

/-!
Verification of the image-fixture utilities in this repository:
`generate_test_images.py` (the Image Fixture Generator) and
`test_scenarios.py` (the Scenario Runner).

The generator's randomness comes from Python's `random` module: an MT19937
Mersenne Twister seeded through `init_by_array`, with `randint` built on
rejection sampling over `getrandbits` (CPython `_randommodule.c` and
`Lib/random.py`).  We embed that generator bit-exactly.  The 624-word
`uint32_t` state array is represented as a single natural number holding the
words little-endian in base 2^32 (word `i` occupies bits `32*i ..< 32*i+32`);
all word arithmetic is `Nat` arithmetic reduced modulo 2^32 explicitly.

Drawing is embedded as a trace of draw operations in source order; the PIL
rasterizer is a deterministic function of such a trace, so equal traces render
to pixel-identical PNGs, and a pixel under a trace whose last covering
operation is a filled rectangle is that rectangle's fill color under any
rasterization of the remaining primitives.  Font metrics
(`ImageFont.load_default` / `draw.textbbox`) live outside this repository, so
the text bounding box is a parameter `tb` of the embedding and theorems
quantify over it.
-/

namespace ImgGen

/-- 2^32, the modulus of all MT19937 word arithmetic. -/
def M32 : Nat := 4294967296

/-- Reduce to a 32-bit word: the `uint32_t` truncation of CPython's generator. -/
def u32 (n : Nat) : Nat := n % M32

/-- Read word `i` of a packed state (`mt[i]` of the C code). -/
def getW (st i : Nat) : Nat := (st >>> (32 * i)) &&& 4294967295

/-- Write word `i` of a packed state (`mt[i] = v`, `v` already 32-bit). -/
def setW (st i v : Nat) : Nat := st - (getW st i <<< (32 * i)) + (v <<< (32 * i))

/-- Evaluation-strictness device: `force x f` is definitionally `f x`, but
puts `x` on the reduction path before `f` is entered, so that interpreter and
kernel normalize (and cache) the intermediate states of the long MT19937 loops
instead of accumulating them as closures.  Semantically it is the identity
application, see `force_eq`. -/
def force (x : Nat) (f : Nat → α) : α := if x = x then f x else f x

/-- `mag01[y & 1]` from the MT19937 twist. -/
def mag01 (y : Nat) : Nat := if y % 2 == 1 then 0x9908b0df else 0

/-- The loop of `init_genrand`:
`mt[i] = 1812433253 * (mt[i-1] ^ (mt[i-1] >> 30)) + i` for `i = 1 .. 623`. -/
def igLoop (st i : Nat) : Nat → Nat
  | 0 => st
  | k+1 =>
    let prev := getW st (i-1)
    force (setW st i (u32 (1812433253 * (prev ^^^ (prev >>> 30)) + i)))
      (fun st => igLoop st (i+1) k)

/-- `init_genrand(s)` from CPython's `_randommodule.c`. -/
def initGenrand (s : Nat) : Nat := igLoop (u32 s) 1 623

/-- First mixing loop of `init_by_array` (`max(N, key_length)` iterations):
`mt[i] = (mt[i] ^ ((mt[i-1] ^ (mt[i-1] >> 30)) * 1664525)) + init_key[j] + j`,
with the wrap-around `mt[0] = mt[N-1]; i = 1` when `i` reaches `N`. -/
def ibaLoop1 (key : List Nat) (st i j : Nat) : Nat → Nat × Nat
  | 0 => (st, i)
  | k+1 =>
    let prev := getW st (i-1)
    let v := u32 ((getW st i ^^^ u32 ((prev ^^^ (prev >>> 30)) * 1664525)) + key.getD j 0 + j)
    let st := setW st i v
    let i := i + 1
    let j := j + 1
    let st := if i ≥ 624 then setW st 0 (getW st 623) else st
    let i := if i ≥ 624 then 1 else i
    let j := if j ≥ key.length then 0 else j
    force st (fun st => ibaLoop1 key st i j k)

/-- Second mixing loop of `init_by_array` (`N-1` iterations):
`mt[i] = (mt[i] ^ ((mt[i-1] ^ (mt[i-1] >> 30)) * 1566083941)) - i`
in `uint32_t` arithmetic, with the same wrap-around. -/
def ibaLoop2 (st i : Nat) : Nat → Nat
  | 0 => st
  | k+1 =>
    let prev := getW st (i-1)
    let v := ((getW st i ^^^ u32 ((prev ^^^ (prev >>> 30)) * 1566083941)) + M32 - i) % M32
    let st := setW st i v
    let i := i + 1
    let st := if i ≥ 624 then setW st 0 (getW st 623) else st
    let i := if i ≥ 624 then 1 else i
    force st (fun st => ibaLoop2 st i k)

/-- `init_by_array(init_key, key_length)` from CPython's `_randommodule.c`. -/
def initByArray (key : List Nat) : Nat :=
  let st := initGenrand 19650218
  let p := ibaLoop1 key st 1 0 (max 624 key.length)
  let st := ibaLoop2 p.1 p.2 623
  setW st 0 0x80000000

/-- Digit extraction on fuel (structural, so it reduces in the kernel);
`n` itself bounds the digit count since `n / 2^32 < n` for `n > 0`. -/
def keyWordsAux : Nat → Nat → List Nat
  | 0, _ => []
  | _+1, 0 => []
  | fuel+1, n => n % M32 :: keyWordsAux fuel (n / M32)

/-- The little-endian base-2^32 digits of `n`: how CPython splits an int seed
into the `uint32_t` key array. -/
def keyWords (n : Nat) : List Nat := keyWordsAux n n

/-- The key array passed to `init_by_array` for an integer seed `n ≥ 0`. -/
def keyOf (n : Nat) : List Nat := if n = 0 then [0] else keyWords n

/-- Generator state: the packed 624-word array and the read index
(`self->index` of the C struct). -/
structure MTState where
  mt : Nat
  index : Nat
deriving DecidableEq

/-- `random.seed(n)` for a nonnegative int `n`: `init_by_array` on the key
words of `n`.  The index is left at 624, so the first extraction twists. -/
def seedState (n : Nat) : MTState := ⟨initByArray (keyOf n), 624⟩

/-- One update of the twist loop at position `kk`; reading positions
`kk+1` and `kk+397` modulo 624 of the in-place updated array is exactly the
three-phase loop of `genrand_uint32`. -/
def twistStep (st kk : Nat) : Nat :=
  let y := (getW st kk &&& 0x80000000) ||| (getW st ((kk+1) % 624) &&& 0x7fffffff)
  setW st kk (getW st ((kk + 397) % 624) ^^^ (y >>> 1) ^^^ mag01 y)

/-- The twist loop over positions `kk, kk+1, ...` (624 in all). -/
def twistLoop (st kk : Nat) : Nat → Nat
  | 0 => st
  | k+1 => force (twistStep st kk) (fun st => twistLoop st (kk+1) k)

/-- The full MT19937 twist regenerating all 624 words. -/
def twist (st : Nat) : Nat := twistLoop st 0 624

/-- The MT19937 tempering applied to an extracted word. -/
def temper (y : Nat) : Nat :=
  let y := y ^^^ (y >>> 11)
  let y := y ^^^ ((u32 (y <<< 7)) &&& 0x9d2c5680)
  let y := y ^^^ ((u32 (y <<< 15)) &&& 0xefc60000)
  y ^^^ (y >>> 18)

/-- `genrand_uint32`: twist when the index is exhausted, then temper one word. -/
def genrand (s : MTState) : Nat × MTState :=
  let s := if s.index ≥ 624 then ⟨twist s.mt, 0⟩ else s
  (temper (getW s.mt s.index), ⟨s.mt, s.index + 1⟩)

/-- `random.getrandbits(k)` for `0 < k ≤ 32`: one word shifted right by `32-k`
(`genrand_uint32(self) >> (32 - k)`). -/
def getrandbits (k : Nat) (s : MTState) : Nat × MTState :=
  let (r, s) := genrand s
  (r >>> (32 - k), s)

/-- Binary-digit count on fuel (structural, so it reduces in the kernel);
`n` bounds its own digit count. -/
def bitLenAux : Nat → Nat → Nat
  | 0, _ => 0
  | _+1, 0 => 0
  | fuel+1, n => bitLenAux fuel (n / 2) + 1

/-- Python's `int.bit_length()` for a nonnegative int. -/
def bitLength (n : Nat) : Nat := bitLenAux n n

/-- `Random._randbelow_with_getrandbits(n)` for `n > 0`: draw `n.bit_length()`
bits and redraw while the value is `≥ n`.  The rejection loop has no static
bound, so it runs on fuel and yields `none` on exhaustion; the concrete
scenario evaluations below all succeed. -/
def randbelow (n : Nat) (s : MTState) : Nat → Option (Nat × MTState)
  | 0 => none
  | fuel+1 =>
    let (r, s) := getrandbits (bitLength n) s
    if r < n then some (r, s) else randbelow n s fuel

/-- Fuel bound for the rejection loop. -/
def randbelowFuel : Nat := 10000

/-- `random.randint(a, b)` = `randrange(a, b+1)` = `a + _randbelow(b+1-a)`
(for `a ≤ b`, the only way this repository calls it). -/
def randint (a b : Nat) (s : MTState) : Option (Nat × MTState) :=
  (randbelow (b + 1 - a) s randbelowFuel).map (fun rs => (a + rs.1, rs.2))

end ImgGen

namespace ImgGen

/-- An RGB color triple. -/
def RGB := Nat × Nat × Nat
deriving instance DecidableEq for RGB

/-- A `color_scheme` tuple: (background color, text color, shape color). -/
def Scheme := RGB × RGB × RGB
deriving instance DecidableEq for Scheme

/-- One entry of the hardcoded `test_cases` list of `main`
(`generate_test_images.py`, lines 73-89). -/
structure TestCase where
  filename : String
  text : String
  color_scheme : Scheme
deriving DecidableEq

/-- The hardcoded `test_cases` list (lines 73-89). -/
def baseCases : List TestCase :=
  [⟨"ui-main-screen.png", "Main Screen UI", ((255, 255, 255), (0, 0, 0), (100, 150, 200))⟩,
   ⟨"ui-settings-dialog.png", "Settings Dialog", ((240, 240, 240), (50, 50, 50), (200, 100, 100))⟩,
   ⟨"ui-dashboard.png", "Dashboard View", ((250, 250, 250), (30, 30, 30), (150, 200, 100))⟩]

/-- `test_cases[i]['text'] = t` (no-op on an out-of-range index). -/
def setText (l : List TestCase) (i : Nat) (t : String) : List TestCase :=
  match l.get? i with
  | some c => l.set i { c with text := t }
  | none => l

/-- `test_cases[i]['color_scheme'] = cs`. -/
def setScheme (l : List TestCase) (i : Nat) (cs : Scheme) : List TestCase :=
  match l.get? i with
  | some c => l.set i { c with color_scheme := cs }
  | none => l

/-- The scenario-dependent mutation of `test_cases` (lines 91-104):
`changed` rewrites the text and/or colors of all three entries, `mixed`
rewrites only entry 0, anything else leaves the list untouched. -/
def scenarioCases (scenario : String) : List TestCase :=
  let tc := baseCases
  if scenario == "changed" then
    let tc := setText tc 0 ("Main Screen UI - UPDATED")
    let tc := setScheme tc 0 ((255, 255, 255), (0, 0, 0), (150, 100, 200))
    let tc := setScheme tc 1 ((220, 220, 220), (50, 50, 50), (200, 150, 100))
    let tc := setText tc 2 ("Dashboard View - MODIFIED")
    let tc := setScheme tc 2 ((240, 240, 240), (40, 40, 40), (100, 150, 200))
    tc
  else if scenario == "mixed" then
    let tc := setText tc 0 ("Main Screen UI - CHANGED")
    let tc := setScheme tc 0 ((255, 255, 255), (0, 0, 0), (200, 100, 150))
    tc
  else tc

/-- The seed `main` passes to `random.seed` (lines 64-70): 123 for `changed`,
42 for every other scenario value. -/
def seedFor (scenario : String) : Nat := if scenario == "changed" then 123 else 42

/-- A drawing primitive issued on the `ImageDraw` canvas, in source order.
Coordinates are `Int` because the centered text position can go negative for
wide text. -/
inductive DrawOp where
  | rectOutline (x1 y1 x2 y2 : Int) (outline : RGB) (width : Nat)
  | ellipseOutline (x1 y1 x2 y2 : Int) (outline : RGB) (width : Nat)
  | text (x y : Int) (s : String) (fill : RGB)
  | rectFill (x1 y1 x2 y2 : Int) (fill : RGB)
deriving DecidableEq

/-- The full deterministic input to the PIL rasterizer for one image:
canvas size, background fill of `Image.new`, and the draw-call trace. -/
structure ImageTrace where
  width : Nat
  height : Nat
  bg : RGB
  ops : List DrawOp
deriving DecidableEq

/-- The text bounding box `draw.textbbox((0, 0), text, font=font)` with the
default font: a font metric external to this repository, kept as a parameter
`(x0, y0, x1, y1)` of the embedding. -/
def TB := String → Int × Int × Int × Int

/-- The bounds of one random filled rectangle. -/
structure Rect where
  x1 : Nat
  y1 : Nat
  x2 : Nat
  y2 : Nat
deriving DecidableEq

/-- One iteration of the random-elements loop (lines 47-49):
`x1, y1 = randint(0, width), randint(0, height)` then
`x2, y2 = x1 + randint(10, 50), y1 + randint(10, 50)`. -/
def randomRect (width height : Nat) (s : MTState) : Option (Rect × MTState) :=
  (randint 0 width s).bind fun (x1, s) =>
  (randint 0 height s).bind fun (y1, s) =>
  (randint 10 50 s).bind fun (dx, s) =>
  (randint 10 50 s).map fun (dy, s) =>
  (⟨x1, y1, x1 + dx, y1 + dy⟩, s)

/-- The `for i in range(n)` loop of random filled rectangles, in draw order. -/
def randomRects (width height : Nat) (s : MTState) : Nat → Option (List Rect × MTState)
  | 0 => some ([], s)
  | n+1 =>
    (randomRect width height s).bind fun (r, s) =>
    (randomRects width height s n).map fun (rs, s) => (r :: rs, s)

/-- `create_test_image(filename, text, width, height, color_scheme)`
(lines 12-52) as a trace: default colors when `color_scheme` is `None`;
border rectangle `[50, 50, width-50, height-50]` outlined width 3; ellipse
`[100, 100, width-100, height-100]` outlined width 2; the caption centered
from the `textbbox` metric with Python floor division; then the five random
filled rectangles.  `main` always calls it with `width = 400, height = 300`
(the Python defaults).  The `filename` argument is accepted and unused,
as in the source. -/
def create_test_image (tb : TB) (filename text : String) (width height : Nat)
    (color_scheme : Option Scheme) (s : MTState) : Option (ImageTrace × MTState) :=
  let cs := match color_scheme with
    | none => ((255, 255, 255), (0, 0, 0), (100, 150, 200))
    | some cs => cs
  let bg_color := cs.1
  let text_color := cs.2.1
  let shape_color := cs.2.2
  let bbox := tb text
  let text_width := bbox.2.2.1 - bbox.1
  let text_height := bbox.2.2.2 - bbox.2.1
  let x := Int.fdiv ((width : Int) - text_width) 2
  let y := Int.fdiv ((height : Int) - text_height) 2
  let _ := filename
  (randomRects width height s 5).map fun (rs, s) =>
  (⟨width, height, bg_color,
    [DrawOp.rectOutline 50 50 ((width : Int) - 50) ((height : Int) - 50) shape_color 3,
     DrawOp.ellipseOutline 100 100 ((width : Int) - 100) ((height : Int) - 100) shape_color 2,
     DrawOp.text x y text text_color] ++
    rs.map (fun r => DrawOp.rectFill (r.x1 : Int) (r.y1 : Int) (r.x2 : Int) (r.y2 : Int) shape_color)⟩,
   s)

/-- The `for test_case in test_cases` loop of `main` (lines 106-116): render
each case and save it under `os.path.join('outputs', filename)`. -/
def renderList (tb : TB) (cases : List TestCase) (s : MTState) :
    Option (List (String × ImageTrace)) :=
  match cases with
  | [] => some []
  | c :: rest =>
    (create_test_image tb c.filename c.text 400 300 (some c.color_scheme) s).bind
      fun (img, s) => (renderList tb rest s).map
        fun l => ("outputs/" ++ c.filename, img) :: l

/-- `main()` of `generate_test_images.py`: the files written (path paired with
rendered trace) for a scenario value of `TEST_SCENARIO`. -/
def mainOutputs (tb : TB) (scenario : String) : Option (List (String × ImageTrace)) :=
  renderList tb (scenarioCases scenario) (seedState (seedFor scenario))

/-- `main()` including the pre-existing state `s0` of the global `random`
module: `random.seed` (line 66 or 69) replaces `s0` before anything draws,
so the run does not depend on it. -/
def mainRun (tb : TB) (scenario : String) (s0 : MTState) :
    Option (List (String × ImageTrace)) :=
  mainOutputs tb scenario

/-- Pixel semantics of a trace.  A filled rectangle covers its corner
coordinates inclusively (PIL semantics) and paints its fill color over
whatever was below; the exact coverage of outline rectangles, outline
ellipses and text is PIL/font internals, so it is supplied as parameters
`roSem`, `elSem`, `txSem` (`some c` = the op paints the pixel with `c`,
`none` = it leaves the pixel alone). -/
def rasterPixel
    (roSem : Int → Int → Int → Int → RGB → Nat → Int × Int → Option RGB)
    (elSem : Int → Int → Int → Int → RGB → Nat → Int × Int → Option RGB)
    (txSem : Int → Int → String → RGB → Int × Int → Option RGB)
    (img : ImageTrace) (p : Int × Int) : RGB :=
  img.ops.foldl (fun c op =>
    match op with
    | .rectOutline x1 y1 x2 y2 col w => (roSem x1 y1 x2 y2 col w p).getD c
    | .ellipseOutline x1 y1 x2 y2 col w => (elSem x1 y1 x2 y2 col w p).getD c
    | .text x y str col => (txSem x y str col p).getD c
    | .rectFill x1 y1 x2 y2 col =>
      if x1 ≤ p.1 ∧ p.1 ≤ x2 ∧ y1 ≤ p.2 ∧ p.2 ≤ y2 then col else c) img.bg

end ImgGen

namespace Runner

/-- An observable side effect of the Scenario Runner. -/
inductive REff where
  | consoleLine (msg : String)
  | removeTree (dir : String)
  | spawnGen (scenario : String)
deriving DecidableEq

/-- The outcome of `subprocess.run(['python', 'generate_test_images.py'], ...)`
with `TEST_SCENARIO` set: exit status and captured streams. -/
structure ChildResult where
  returncode : Int
  capturedOut : String
  capturedErr : String

/-- The parts of the environment outside `test_scenarios.py` itself: what the
child process does per scenario, and what the filesystem answers.  Directory
existence and listings are supplied per scenario name (the runner only queries
them inside `run_scenario(scenario_name)`). -/
structure World where
  genResult : String → ChildResult
  outputsExists : String → Bool
  diffsExists : String → Bool
  outputsExistsAfter : String → Bool
  outputsList : String → List String

/-- `'=' * 50`. -/
def eq50 : String := String.mk (List.replicate 50 '=')

/-- Python `repr` of a list of strings, as an f-string interpolates it. -/
def pyListRepr (l : List String) : String :=
  "[" ++ String.intercalate (", ") (l.map (fun s => "\x27" ++ s ++ "\x27")) ++ "]"

/-- `run_scenario(scenario_name)` (lines 12-43): banner prints, cleanup of
`outputs/` and `diffs/` when present, one generator child process, then either
the error path (non-zero exit, returns `False`) or the success path (prints
child stdout and the generated-file listing, returns `True`). -/
def run_scenario (w : World) (name : String) : List REff × Bool :=
  let pre :=
    [REff.consoleLine ("\n" ++ eq50),
     REff.consoleLine ("Running scenario: " ++ name),
     REff.consoleLine eq50] ++
    (if w.outputsExists name then [REff.removeTree ("outputs")] else []) ++
    (if w.diffsExists name then [REff.removeTree ("diffs")] else []) ++
    [REff.consoleLine ("Generating test images..."),
     REff.spawnGen name]
  let result := w.genResult name
  if result.returncode ≠ 0 then
    (pre ++ [REff.consoleLine ("Error generating images: " ++ result.capturedErr)], false)
  else
    (pre ++ [REff.consoleLine result.capturedOut] ++
      (if w.outputsExistsAfter name then
        [REff.consoleLine ("Generated " ++ toString (w.outputsList name).length ++
          " output files: " ++ pyListRepr (w.outputsList name))]
       else []),
     true)

/-- The `scenarios` list of `main` (line 48). -/
def allScenarios : List String := ["baseline", "changed", "mixed"]

/-- The six banner prints of `main` (lines 58-64). -/
def banner : List REff :=
  [REff.consoleLine ("Visual Regression Test Scenario Runner"),
   REff.consoleLine ("====================================="),
   REff.consoleLine ("This script demonstrates the different test scenarios:"),
   REff.consoleLine ("  baseline: All images match golden masters (tests pass)"),
   REff.consoleLine ("  changed:  All images differ from golden masters (tests fail)"),
   REff.consoleLine ("  mixed:    Some images pass, some fail"),
   REff.consoleLine ("")]

/-- The `for scenario in scenarios` loop (lines 66-69): run every scenario,
recording effects; `success` drops to `False` on any failure but the loop
never stops early. -/
def runAll (w : World) : List String → List REff × Bool
  | [] => ([], true)
  | name :: rest =>
    ((run_scenario w name).1 ++ (runAll w rest).1,
     (run_scenario w name).2 && (runAll w rest).2)

/-- The epilogue of `main` (lines 71-79) and the process exit status:
0 when every scenario succeeded (main returns, implicit status 0),
otherwise a failure notice and `sys.exit(1)`. -/
def epilogue (success : Bool) : List REff × Nat :=
  if success then
    ([REff.consoleLine ("\n" ++ eq50),
      REff.consoleLine ("All scenarios completed successfully!"),
      REff.consoleLine ("You can now trigger the visual-diff workflow with different scenarios"),
      REff.consoleLine ("using the workflow_dispatch event on GitHub Actions."),
      REff.consoleLine eq50], 0)
  else
    ([REff.consoleLine ("\nSome scenarios failed. Check the error messages above.")], 1)

/-- `main()` of `test_scenarios.py` on a full `sys.argv` (program name first):
the effect trace and the process exit status.  With an argument that is not a
known scenario name it prints the choices and exits 1 (lines 50-56) before
any banner, cleanup or child process; otherwise it runs the selected (or all
three) scenarios and reports the aggregate result. -/
def runner_main (w : World) (argv : List String) : List REff × Nat :=
  if argv.length > 1 then
    let scenario := argv.getD 1 ("")
    if allScenarios.contains scenario then
      (banner ++ (runAll w [scenario]).1 ++ (epilogue (runAll w [scenario]).2).1,
       (epilogue (runAll w [scenario]).2).2)
    else
      ([REff.consoleLine ("Invalid scenario. Choose from: " ++ pyListRepr allScenarios)], 1)
  else
    (banner ++ (runAll w allScenarios).1 ++ (epilogue (runAll w allScenarios).2).1,
     (epilogue (runAll w allScenarios).2).2)

/-- The scenario names handed to generator child processes, in spawn order. -/
def spawns (effs : List REff) : List String :=
  effs.filterMap (fun e => match e with
    | REff.spawnGen s => some s
    | _ => none)

/-- The directories deleted, in order. -/
def removals (effs : List REff) : List String :=
  effs.filterMap (fun e => match e with
    | REff.removeTree d => some d
    | _ => none)

end Runner

namespace ImgGen

/-- A degenerate text-metric (empty bounding box), used to instantiate
`tb` in concrete witnesses and counterexamples. -/
def tbZero : TB := fun _ => (0, 0, 0, 0)

/-- The five random rectangles of the first image under seed 42. -/
def rects42img0 : List Rect :=
  [⟨327, 57, 338, 84⟩, ⟨125, 114, 143, 130⟩, ⟨346, 279, 361, 326⟩,
   ⟨216, 16, 227, 31⟩, ⟨111, 119, 153, 167⟩]

/-- The five random rectangles of the second image under seed 42. -/
def rects42img1 : List Rect :=
  [⟨13, 287, 35, 331⟩, ⟨214, 112, 252, 159⟩, ⟨142, 3, 162, 40⟩,
   ⟨174, 142, 193, 165⟩, ⟨390, 172, 406, 187⟩]

/-- The five random rectangles of the third image under seed 42. -/
def rects42img2 : List Rect :=
  [⟨194, 49, 226, 81⟩, ⟨309, 135, 321, 174⟩, ⟨274, 63, 308, 78⟩,
   ⟨282, 150, 332, 199⟩, ⟨185, 295, 207, 309⟩]

/-- The generator state a rectangle batch leaves behind. -/
def stAfter (o : Option (List Rect × MTState)) : MTState :=
  (o.map Prod.snd).getD ⟨0, 0⟩

/-- State after the first image's draws under seed 42. -/
def st42a : MTState := stAfter (randomRects 400 300 (seedState 42) 5)

/-- State after the second image's draws under seed 42. -/
def st42b : MTState := stAfter (randomRects 400 300 st42a 5)

/-- State after the third image's draws under seed 42. -/
def st42c : MTState := stAfter (randomRects 400 300 st42b 5)


/-- `randint` consumption per image is scenario-independent, so the state
thread is shared by `baseline` and `mixed`; bundle the per-image batches for
counting. -/
def consumeN : Nat → MTState → Option MTState
  | 0, s => some s
  | n+1, s => (randomRects 400 300 s 5).bind fun p => consumeN n p.2

/-- State after all three images under seed 123 (scenario `changed`). -/
def st123c : MTState := (consumeN 3 (seedState 123)).getD ⟨0, 0⟩


end ImgGen

namespace ImgGen

/-- Classification of draw operations, for stating the draw order. -/
inductive OpKind where
  | border
  | ellipse
  | caption
  | fill
deriving DecidableEq

/-- The kind of a draw operation. -/
def kindOf : DrawOp → OpKind
  | .rectOutline _ _ _ _ _ _ => .border
  | .ellipseOutline _ _ _ _ _ _ => .ellipse
  | .text _ _ _ _ => .caption
  | .rectFill _ _ _ _ _ => .fill

/-- The trace `create_test_image` produces at the default 400x300 canvas for
a test case, given the five random rectangles it drew. -/
def mkTrace (tb : TB) (c : TestCase) (rs : List Rect) : ImageTrace :=
  ⟨400, 300, c.color_scheme.1,
   [DrawOp.rectOutline 50 50 350 250 c.color_scheme.2.2 3,
    DrawOp.ellipseOutline 100 100 300 200 c.color_scheme.2.2 2,
    DrawOp.text (((400 : Int) - ((tb c.text).2.2.1 - (tb c.text).1)).fdiv 2)
      (((300 : Int) - ((tb c.text).2.2.2 - (tb c.text).2.1)).fdiv 2)
      c.text c.color_scheme.2.1] ++
   rs.map (fun r => DrawOp.rectFill (r.x1 : Int) (r.y1 : Int) (r.x2 : Int) (r.y2 : Int)
     c.color_scheme.2.2)⟩

/-- The `test_cases` list as mutated by scenario `changed`. -/
def changedCases : List TestCase :=
  [⟨"ui-main-screen.png", "Main Screen UI - UPDATED", ((255, 255, 255), (0, 0, 0), (150, 100, 200))⟩,
   ⟨"ui-settings-dialog.png", "Settings Dialog", ((220, 220, 220), (50, 50, 50), (200, 150, 100))⟩,
   ⟨"ui-dashboard.png", "Dashboard View - MODIFIED", ((240, 240, 240), (40, 40, 40), (100, 150, 200))⟩]

/-- The `test_cases` list as mutated by scenario `mixed`: only entry 0 changes. -/
def mixedCases : List TestCase :=
  [⟨"ui-main-screen.png", "Main Screen UI - CHANGED", ((255, 255, 255), (0, 0, 0), (200, 100, 150))⟩,
   ⟨"ui-settings-dialog.png", "Settings Dialog", ((240, 240, 240), (50, 50, 50), (200, 100, 100))⟩,
   ⟨"ui-dashboard.png", "Dashboard View", ((250, 250, 250), (30, 30, 30), (150, 200, 100))⟩]

/-- A cheap concrete `create_test_image` call used in witnesses: zero text
metric and the all-zero generator state (every `randint(a, b)` then returns
`a`, so all five rectangles are `(0, 0, 10, 10)`). -/
def trivImage : ImageTrace :=
  ⟨400, 300, (255, 255, 255),
   [DrawOp.rectOutline 50 50 350 250 (100, 150, 200) 3,
    DrawOp.ellipseOutline 100 100 300 200 (100, 150, 200) 2,
    DrawOp.text 200 150 ("t") (0, 0, 0)] ++
   List.replicate 5 (DrawOp.rectFill 0 0 10 10 (100, 150, 200))⟩

end ImgGen

namespace Runner

/-- A concrete world for witnesses: every child exits 0, nothing exists. -/
def trivWorld : World :=
  ⟨fun _ => ⟨0, "", ""⟩, fun _ => false, fun _ => false, fun _ => false, fun _ => []⟩

end Runner

namespace ImgGen

/-- The three files a `mixed` run writes (traces as functions of the font
metric `tb`). -/
def outMixed (tb : TB) : List (String × ImageTrace) :=
  [("outputs/ui-main-screen.png",
    mkTrace tb ⟨"ui-main-screen.png", "Main Screen UI - CHANGED",
      ((255, 255, 255), (0, 0, 0), (200, 100, 150))⟩ rects42img0),
   ("outputs/ui-settings-dialog.png",
    mkTrace tb ⟨"ui-settings-dialog.png", "Settings Dialog",
      ((240, 240, 240), (50, 50, 50), (200, 100, 100))⟩ rects42img1),
   ("outputs/ui-dashboard.png",
    mkTrace tb ⟨"ui-dashboard.png", "Dashboard View",
      ((250, 250, 250), (30, 30, 30), (150, 200, 100))⟩ rects42img2)]

/-- The three files a `baseline` run writes. -/
def outBaseline (tb : TB) : List (String × ImageTrace) :=
  [("outputs/ui-main-screen.png",
    mkTrace tb ⟨"ui-main-screen.png", "Main Screen UI",
      ((255, 255, 255), (0, 0, 0), (100, 150, 200))⟩ rects42img0),
   ("outputs/ui-settings-dialog.png",
    mkTrace tb ⟨"ui-settings-dialog.png", "Settings Dialog",
      ((240, 240, 240), (50, 50, 50), (200, 100, 100))⟩ rects42img1),
   ("outputs/ui-dashboard.png",
    mkTrace tb ⟨"ui-dashboard.png", "Dashboard View",
      ((250, 250, 250), (30, 30, 30), (150, 200, 100))⟩ rects42img2)]

end ImgGen

namespace ImgGen

theorem force_eq (x : Nat) (f : Nat → α) : force x f = f x := if_pos rfl

set_option maxRecDepth 1000000 in
/-- The concrete random-rectangle stream of a seed-42 run (scenario `baseline`
or `mixed`): the three images consume the stream in order, and the draws match
CPython's `random.randint` outputs bit-exactly. -/
theorem rects42_eval :
    randomRects 400 300 (seedState 42) 5 = some (rects42img0, st42a) ∧
    randomRects 400 300 st42a 5 = some (rects42img1, st42b) ∧
    randomRects 400 300 st42b 5 = some (rects42img2, st42c) := by
  decide

set_option maxRecDepth 1000000 in
/-- A seed-123 run also draws all fifteen rectangles without exhausting the
rejection-sampling fuel. -/
theorem consume123_eval : consumeN 3 (seedState 123) = some st123c := by decide

theorem consume42_eval : consumeN 3 (seedState 42) = some st42c := by
  simp [consumeN, rects42_eval.1, rects42_eval.2.1, rects42_eval.2.2]

/-- The filenames a render writes depend only on the case list; whether it
succeeds depends only on the random stream. -/
theorem renderList_names (tb : TB) (cases : List TestCase) (s : MTState) :
    (renderList tb cases s).map (List.map Prod.fst) =
      (consumeN cases.length s).map (fun _ => cases.map (fun c => "outputs/" ++ c.filename)) := by
  induction cases generalizing s with
  | nil => rfl
  | cons c rest ih =>
    cases h : randomRects 400 300 s 5 with
    | none => simp [renderList, create_test_image, consumeN, h]
    | some p =>
      have h2 := ih p.2
      cases hr : renderList tb rest p.2 with
      | none =>
        rw [hr] at h2
        cases hc : consumeN rest.length p.2 with
        | none => simp [renderList, create_test_image, consumeN, h, hr, hc]
        | some st => rw [hc] at h2; simp at h2
      | some l =>
        rw [hr] at h2
        cases hc : consumeN rest.length p.2 with
        | none => rw [hc] at h2; simp at h2
        | some st =>
          rw [hc] at h2
          simp at h2
          simp [renderList, create_test_image, consumeN, h, hr, hc, h2]

/-- A successful `_randbelow(n)` draw is `< n`. -/
theorem randbelow_lt (n : Nat) (s : MTState) (fuel : Nat) (r : Nat) (s' : MTState)
    (h : randbelow n s fuel = some (r, s')) : r < n := by
  induction fuel generalizing s with
  | zero => simp [randbelow] at h
  | succ fuel ih =>
    unfold randbelow at h
    split at h
    rename_i r0 s0 hg
    split at h
    · rename_i hlt
      have hr : r0 = r := congrArg Prod.fst (Option.some.inj h)
      exact hr ▸ hlt
    · exact ih _ h

/-- A successful `randint(a, b)` draw lies in `[a, b]` (for `a ≤ b`). -/
theorem randint_bounds (a b : Nat) (hab : a ≤ b) (s : MTState) (v : Nat) (s' : MTState)
    (h : randint a b s = some (v, s')) : a ≤ v ∧ v ≤ b := by
  unfold randint at h
  cases hg : randbelow (b + 1 - a) s randbelowFuel with
  | none => rw [hg] at h; simp at h
  | some p =>
    rw [hg] at h
    simp only [Option.map] at h
    have hv : v = a + p.1 := (congrArg Prod.fst (Option.some.inj h)).symm
    have := randbelow_lt (b + 1 - a) s randbelowFuel p.1 p.2 (by rw [hg])
    omega

/-- Bounds on one random rectangle: its top-left corner is inside the canvas,
and each side length is between 10 and 50. -/
theorem randomRect_bounds (w h : Nat) (s : MTState) (r : Rect) (s' : MTState)
    (hr : randomRect w h s = some (r, s')) :
    r.x1 ≤ w ∧ r.y1 ≤ h ∧ r.x1 + 10 ≤ r.x2 ∧ r.x2 ≤ r.x1 + 50 ∧
      r.y1 + 10 ≤ r.y2 ∧ r.y2 ≤ r.y1 + 50 := by
  unfold randomRect at hr
  cases h1 : randint 0 w s with
  | none => rw [h1] at hr; simp at hr
  | some p1 =>
    rw [h1] at hr
    simp only [Option.some_bind] at hr
    cases h2 : randint 0 h p1.2 with
    | none => rw [h2] at hr; simp at hr
    | some p2 =>
      rw [h2] at hr
      simp only [Option.some_bind] at hr
      cases h3 : randint 10 50 p2.2 with
      | none => rw [h3] at hr; simp at hr
      | some p3 =>
        rw [h3] at hr
        simp only [Option.some_bind] at hr
        cases h4 : randint 10 50 p3.2 with
        | none => rw [h4] at hr; simp at hr
        | some p4 =>
          rw [h4] at hr
          simp only [Option.map_some'] at hr
          have hrr : r = ⟨p1.1, p2.1, p1.1 + p3.1, p2.1 + p4.1⟩ :=
            (congrArg Prod.fst (Option.some.inj hr)).symm
          have b1 := randint_bounds 0 w (Nat.zero_le w) s p1.1 p1.2 (by rw [h1])
          have b2 := randint_bounds 0 h (Nat.zero_le h) p1.2 p2.1 p2.2 (by rw [h2])
          have b3 := randint_bounds 10 50 (by omega) p2.2 p3.1 p3.2 (by rw [h3])
          have b4 := randint_bounds 10 50 (by omega) p3.2 p4.1 p4.2 (by rw [h4])
          subst hrr
          simp only
          omega

/-- Bounds for every rectangle in a batch. -/
theorem randomRects_mem_bounds (w h : Nat) (n : Nat) (s : MTState) (rs : List Rect)
    (s' : MTState) (hrs : randomRects w h s n = some (rs, s')) (r : Rect) (hm : r ∈ rs) :
    r.x1 ≤ w ∧ r.y1 ≤ h ∧ r.x1 + 10 ≤ r.x2 ∧ r.x2 ≤ r.x1 + 50 ∧
      r.y1 + 10 ≤ r.y2 ∧ r.y2 ≤ r.y1 + 50 := by
  induction n generalizing s rs with
  | zero =>
    unfold randomRects at hrs
    obtain rfl : rs = [] := (congrArg Prod.fst (Option.some.inj hrs)).symm
    cases hm
  | succ n ih =>
    unfold randomRects at hrs
    cases h1 : randomRect w h s with
    | none => rw [h1] at hrs; simp at hrs
    | some p1 =>
      rw [h1] at hrs
      simp only [Option.some_bind] at hrs
      cases h2 : randomRects w h p1.2 n with
      | none => rw [h2] at hrs; simp at hrs
      | some p2 =>
        rw [h2] at hrs
        simp only [Option.map_some'] at hrs
        obtain rfl : rs = p1.1 :: p2.1 := (congrArg Prod.fst (Option.some.inj hrs)).symm
        have hsnd : p2.2 = s' := congrArg Prod.snd (Option.some.inj hrs)
        cases hm with
        | head => exact randomRect_bounds w h s p1.1 p1.2 (by rw [h1, Prod.mk.eta])
        | tail _ hm2 =>
          exact ih p1.2 p2.1 (by rw [h2]; exact congrArg some (Prod.ext_iff.mpr ⟨rfl, hsnd⟩)) hm2

/-- A successful batch has exactly `n` rectangles. -/
theorem randomRects_length (w h : Nat) (n : Nat) (s : MTState) (rs : List Rect)
    (s' : MTState) (hrs : randomRects w h s n = some (rs, s')) : rs.length = n := by
  induction n generalizing s rs with
  | zero =>
    unfold randomRects at hrs
    obtain rfl : rs = [] := (congrArg Prod.fst (Option.some.inj hrs)).symm
    rfl
  | succ n ih =>
    unfold randomRects at hrs
    cases h1 : randomRect w h s with
    | none => rw [h1] at hrs; simp at hrs
    | some p1 =>
      rw [h1] at hrs
      simp only [Option.some_bind] at hrs
      cases h2 : randomRects w h p1.2 n with
      | none => rw [h2] at hrs; simp at hrs
      | some p2 =>
        rw [h2] at hrs
        simp only [Option.map_some'] at hrs
        obtain rfl : rs = p1.1 :: p2.1 := (congrArg Prod.fst (Option.some.inj hrs)).symm
        have hsnd : p2.2 = s' := congrArg Prod.snd (Option.some.inj hrs)
        simp [ih p1.2 p2.1 (by rw [h2]; exact congrArg some (Prod.ext_iff.mpr ⟨rfl, hsnd⟩))]

/-- `create_test_image` at the default canvas, in evaluated form. -/
theorem create_eval (tb : TB) (c : TestCase) (s : MTState) :
    create_test_image tb c.filename c.text 400 300 (some c.color_scheme) s =
      (randomRects 400 300 s 5).map (fun p => (mkTrace tb c p.1, p.2)) := rfl

/-- A render of three cases, evaluated against a known random stream. -/
theorem renderList3 (tb : TB) (c0 c1 c2 : TestCase) (s0 : MTState)
    (r0 r1 r2 : List Rect) (s1 s2 s3 : MTState)
    (h0 : randomRects 400 300 s0 5 = some (r0, s1))
    (h1 : randomRects 400 300 s1 5 = some (r1, s2))
    (h2 : randomRects 400 300 s2 5 = some (r2, s3)) :
    renderList tb [c0, c1, c2] s0 =
      some [("outputs/" ++ c0.filename, mkTrace tb c0 r0),
            ("outputs/" ++ c1.filename, mkTrace tb c1 r1),
            ("outputs/" ++ c2.filename, mkTrace tb c2 r2)] := by
  simp [renderList, create_eval, h0, h1, h2]

end ImgGen

namespace ImgGen

/-- Scenario-list reduction: `changed`. -/
theorem scenarioCases_changed (sc : String) (h : (sc == "changed") = true) :
    scenarioCases sc = changedCases := by
  unfold scenarioCases
  rw [h]
  exact (if_pos rfl).trans (by decide)

/-- Scenario-list reduction: `mixed`. -/
theorem scenarioCases_mixed (sc : String) (h1 : (sc == "changed") = false)
    (h2 : (sc == "mixed") = true) : scenarioCases sc = mixedCases := by
  unfold scenarioCases
  rw [h1, h2]
  decide

/-- Scenario-list reduction: every other value. -/
theorem scenarioCases_other (sc : String) (h1 : (sc == "changed") = false)
    (h2 : (sc == "mixed") = false) : scenarioCases sc = baseCases := by
  unfold scenarioCases
  rw [h1, h2]
  decide

/-- Seed reduction for a non-`changed` scenario. -/
theorem seedFor_not_changed (sc : String) (h : (sc == "changed") = false) :
    seedFor sc = 42 := by
  unfold seedFor
  rw [h]
  decide

end ImgGen

open ImgGen Runner

/-- C1 counterexample: under scenario `mixed` the number of descriptors that
differ from the hardcoded list is not two — only `test_cases[0]` is
overridden. -/
theorem c1_counterexample_not_two_descriptors :
    ¬ (((scenarioCases ("mixed")).zip baseCases).countP
        (fun p => decide (p.1 ≠ p.2)) = 2) := by decide

/-- C1 (amended): for the `mixed` scenario the generator uses the baseline
seed 42 and overrides the text and color scheme of exactly one of the three
descriptors (the first); the other two render unmodified from the hardcoded
list. -/
theorem c1_mixed_overrides_exactly_one :
    seedFor ("mixed") = 42 ∧
    scenarioCases ("mixed") = mixedCases ∧
    ((scenarioCases ("mixed")).zip baseCases).countP (fun p => decide (p.1 ≠ p.2)) = 1 ∧
    (scenarioCases ("mixed")).get? 1 = baseCases.get? 1 ∧
    (scenarioCases ("mixed")).get? 2 = baseCases.get? 2 := by decide

/-- C3: the generator seeds its pseudo-random generator with 123 exactly when
the scenario is `changed` and with 42 for every other value (in particular
`baseline` and `mixed`), and every run renders the descriptor list from that
freshly seeded state, whatever state `s0` the `random` module held before. -/
theorem c3_seed_mapping :
    seedFor ("changed") = 123 ∧
    (∀ sc : String, sc ≠ "changed" → seedFor sc = 42) ∧
    (∀ (tb : TB) (sc : String) (s0 : MTState),
      mainRun tb sc s0 = renderList tb (scenarioCases sc) (seedState (seedFor sc))) := by
  refine ⟨rfl, fun sc h => ?_, fun _ _ _ => rfl⟩
  exact seedFor_not_changed sc (beq_eq_false_iff_ne.mpr h)

/-- C3 witness: the `mixed` scenario is seeded with 42. -/
theorem c3_seed_mapping_witness : seedFor ("mixed") = 42 :=
  c3_seed_mapping.2.1 ("mixed") (by decide)

/-- C7: the generator is deterministic per scenario: the pre-existing state of
the `random` module is replaced by `random.seed` before anything is drawn, so
two runs with the same scenario produce identical draw traces (and hence
pixel-identical PNGs, the rasterizer being a function of the trace). -/
theorem c7_generator_deterministic :
    ∀ (tb : TB) (scenario : String) (s0 s1 : MTState),
      mainRun tb scenario s0 = mainRun tb scenario s1 :=
  fun _ _ _ _ => rfl

/-- C10: any `TEST_SCENARIO` value other than `changed` and `mixed` (unset
defaults to `baseline` before `main`'s scenario tests) is never rejected and
behaves exactly like `baseline`: seed 42 and no descriptor overrides. -/
theorem c10_unknown_scenario_is_baseline (tb : TB) (sc : String) (s0 s1 : MTState)
    (h1 : sc ≠ "changed") (h2 : sc ≠ "mixed") :
    seedFor sc = 42 ∧ mainRun tb sc s0 = mainRun tb ("baseline") s1 := by
  have e1 : (sc == "changed") = false := beq_eq_false_iff_ne.mpr h1
  have e2 : (sc == "mixed") = false := beq_eq_false_iff_ne.mpr h2
  refine ⟨seedFor_not_changed sc e1, ?_⟩
  unfold mainRun mainOutputs
  rw [scenarioCases_other sc e1 e2, seedFor_not_changed sc e1,
    scenarioCases_other ("baseline") (by decide) (by decide),
    seedFor_not_changed ("baseline") (by decide)]

/-- C10 witness: the unrecognized value `garbage` renders exactly the
baseline images. -/
theorem c10_unknown_scenario_is_baseline_witness :
    seedFor ("garbage") = 42 ∧
      mainRun tbZero ("garbage") (MTState.mk 0 0) = mainRun tbZero ("baseline") (MTState.mk 0 0) :=
  c10_unknown_scenario_is_baseline tbZero ("garbage") (MTState.mk 0 0) (MTState.mk 0 0)
    (by decide) (by decide)

/-- C4: one generator invocation writes exactly the three files
`outputs/ui-main-screen.png`, `outputs/ui-settings-dialog.png`,
`outputs/ui-dashboard.png`, whatever the scenario value: no override touches
a filename and both seeds draw all fifteen rectangles successfully. -/
theorem c4_three_fixed_filenames (tb : TB) (sc : String) :
    (mainOutputs tb sc).map (List.map Prod.fst) =
      some ["outputs/ui-main-screen.png", "outputs/ui-settings-dialog.png",
            "outputs/ui-dashboard.png"] := by
  unfold mainOutputs
  rw [renderList_names]
  cases hch : sc == "changed" with
  | true =>
    rw [scenarioCases_changed sc hch]
    have hseed : seedFor sc = 123 := by unfold seedFor; rw [hch]; decide
    rw [hseed]
    rw [show (changedCases.length : Nat) = 3 from rfl, consume123_eval]
    decide
  | false =>
    have hseed : seedFor sc = 42 := seedFor_not_changed sc hch
    rw [hseed]
    cases hmx : sc == "mixed" with
    | true =>
      rw [scenarioCases_mixed sc hch hmx]
      rw [show (mixedCases.length : Nat) = 3 from rfl, consume42_eval]
      decide
    | false =>
      rw [scenarioCases_other sc hch hmx]
      rw [show (baseCases.length : Nat) = 3 from rfl, consume42_eval]
      decide

namespace ImgGen


/-- A `mixed` run, fully evaluated against the seed-42 stream. -/
theorem mainOutputs_mixed (tb : TB) : mainOutputs tb ("mixed") = some (outMixed tb) := by
  unfold mainOutputs
  rw [scenarioCases_mixed ("mixed") (by decide) (by decide),
    seedFor_not_changed ("mixed") (by decide)]
  exact renderList3 tb _ _ _ _ _ _ _ _ _ _
    rects42_eval.1 rects42_eval.2.1 rects42_eval.2.2

/-- A `baseline` run, fully evaluated against the same seed-42 stream. -/
theorem mainOutputs_baseline (tb : TB) :
    mainOutputs tb ("baseline") = some (outBaseline tb) := by
  unfold mainOutputs
  rw [scenarioCases_other ("baseline") (by decide) (by decide),
    seedFor_not_changed ("baseline") (by decide)]
  exact renderList3 tb _ _ _ _ _ _ _ _ _ _
    rects42_eval.1 rects42_eval.2.1 rects42_eval.2.2

end ImgGen

/-- C2: under `mixed`, the second and third images are pixel-identical to
their `baseline` counterparts (their draw traces are equal, and the PIL
rasterizer is a function of the trace), while the first image differs
pixel-wise: whatever the rasterization of outlines, ellipses and text, pixel
(120, 130) lies inside the last-drawn filled rectangle (111, 119, 153, 167)
and so carries the shape color, (200, 100, 150) under `mixed` against
(100, 150, 200) under `baseline`. -/
theorem c2_mixed_exactly_one_image_differs (tb : TB)
    (roS elS : Int → Int → Int → Int → RGB → Nat → Int × Int → Option RGB)
    (txS : Int → Int → String → RGB → Int × Int → Option RGB) :
    ((mainOutputs tb ("mixed")).bind fun l => l.get? 1) =
      ((mainOutputs tb ("baseline")).bind fun l => l.get? 1) ∧
    ((mainOutputs tb ("mixed")).bind fun l => l.get? 2) =
      ((mainOutputs tb ("baseline")).bind fun l => l.get? 2) ∧
    ((mainOutputs tb ("mixed")).bind fun l => (l.get? 0).map
        fun pr => rasterPixel roS elS txS pr.2 (120, 130)) = some (200, 100, 150) ∧
    ((mainOutputs tb ("baseline")).bind fun l => (l.get? 0).map
        fun pr => rasterPixel roS elS txS pr.2 (120, 130)) = some (100, 150, 200) ∧
    ((200, 100, 150) : RGB) ≠ ((100, 150, 200) : RGB) := by
  rw [mainOutputs_mixed tb, mainOutputs_baseline tb]
  refine ⟨rfl, rfl, ?_, ?_, by decide⟩
  · simp only [outMixed, Option.some_bind, List.get?, Option.map_some']
    refine congrArg some ?_
    norm_num [rasterPixel, mkTrace, rects42img0, List.foldl]
  · simp only [outBaseline, Option.some_bind, List.get?, Option.map_some']
    refine congrArg some ?_
    norm_num [rasterPixel, mkTrace, rects42img0, List.foldl]

namespace ImgGen

/-- Fill operations built from rectangles are classified `fill`. -/
theorem map_kindOf_fill (col : RGB) (l : List Rect) :
    (l.map (fun r => DrawOp.rectFill (r.x1 : Int) (r.y1 : Int) (r.x2 : Int) (r.y2 : Int)
      col)).map kindOf = List.replicate l.length OpKind.fill := by
  induction l with
  | nil => rfl
  | cons a t ih => simp [ih, kindOf, List.replicate_succ]

end ImgGen

/-- C8 counterexample: in the very first image of a seed-42 run (scenarios
`baseline` and `mixed`), the third random rectangle is (346, 279, 361, 326),
whose bottom edge 326 exceeds the canvas height 300 — it does not lie
entirely within the canvas. -/
theorem c8_counterexample_rect_exits_canvas :
    ((create_test_image tbZero ("ui-main-screen.png") ("Main Screen UI") 400 300
        (some ((255, 255, 255), (0, 0, 0), (100, 150, 200))) (seedState 42)).map
      (fun p => p.1.ops.get? 5)) =
      some (some (DrawOp.rectFill 346 279 361 326 (100, 150, 200))) ∧
    ¬ ((326 : Int) ≤ 300) := by decide

/-- C8 (amended): each of the five random filled rectangles has its top-left
corner inside the canvas (`0 ≤ x1 ≤ width`, `0 ≤ y1 ≤ height`) and side
lengths between 10 and 50, so `x1 ≤ x2 ≤ x1 + 50` and `y1 ≤ y2 ≤ y1 + 50`;
the rectangle may however overhang the right/bottom canvas edges by up to
50 pixels (`x2 ≤ width + 50`, `y2 ≤ height + 50`), since the code never clamps
`x2 = x1 + randint(10, 50)`. -/
theorem c8_rect_bounds_amended (tb : TB) (fn txt : String) (w h : Nat)
    (cs : Option Scheme) (s : MTState) (img : ImageTrace) (s' : MTState)
    (hc : create_test_image tb fn txt w h cs s = some (img, s'))
    (x1 y1 x2 y2 : Int) (col : RGB)
    (hop : DrawOp.rectFill x1 y1 x2 y2 col ∈ img.ops) :
    0 ≤ x1 ∧ 0 ≤ y1 ∧ x1 ≤ (w : Int) ∧ y1 ≤ (h : Int) ∧
      x1 + 10 ≤ x2 ∧ x2 ≤ x1 + 50 ∧ y1 + 10 ≤ y2 ∧ y2 ≤ y1 + 50 := by
  unfold create_test_image at hc
  cases hr : randomRects w h s 5 with
  | none => rw [hr] at hc; simp at hc
  | some p =>
    rw [hr] at hc
    simp only [Option.map_some'] at hc
    obtain rfl : img = _ := (congrArg Prod.fst (Option.some.inj hc)).symm
    simp only [List.mem_append, List.mem_cons, List.mem_map,
      List.not_mem_nil, or_false] at hop
    rcases hop with ((h1 | h2 | h3) | ⟨r, hrm, hre⟩)
    · cases h1
    · cases h2
    · cases h3
    · obtain ⟨hx1, hy1, hx2, hy2, _⟩ :
        (r.x1 : Int) = x1 ∧ (r.y1 : Int) = y1 ∧ (r.x2 : Int) = x2 ∧
          (r.y2 : Int) = y2 ∧ True := by
        cases hre
        exact ⟨rfl, rfl, rfl, rfl, trivial⟩
      have hb := randomRects_mem_bounds w h 5 s p.1 p.2 (by rw [hr, Prod.mk.eta]) r hrm
      omega

/-- C8 amended witness: the all-zero generator state draws the rectangle
(0, 0, 10, 10), which satisfies all the amended bounds on the 400x300 canvas. -/
theorem c8_rect_bounds_amended_witness :
    create_test_image tbZero ("f") ("t") 400 300 none (MTState.mk 0 0) =
      some (trivImage, MTState.mk 0 20) ∧
    (0 ≤ (0 : Int) ∧ 0 ≤ (0 : Int) ∧ (0 : Int) ≤ ((400 : Nat) : Int) ∧
      (0 : Int) ≤ ((300 : Nat) : Int) ∧ (0 : Int) + 10 ≤ 10 ∧ (10 : Int) ≤ 0 + 50 ∧
      (0 : Int) + 10 ≤ 10 ∧ (10 : Int) ≤ 0 + 50) := by
  refine ⟨by decide, ?_⟩
  exact c8_rect_bounds_amended tbZero ("f") ("t") 400 300 none (MTState.mk 0 0)
    trivImage (MTState.mk 0 20) (by decide) 0 0 10 10 (100, 150, 200) (by decide)

/-- C9 counterexample: on the first descriptor of a seed-42 run, the op-kind
trace is border rectangle, ellipse, caption text, then the five fills — the
caption is the third operation, not the last one; the five random rectangles
are drawn after (and possibly over) it. -/
theorem c9_counterexample_text_not_last :
    ((create_test_image tbZero ("ui-main-screen.png") ("Main Screen UI") 400 300
        (some ((255, 255, 255), (0, 0, 0), (100, 150, 200))) (seedState 42)).map
      (fun p => p.1.ops.map kindOf)) =
      some [OpKind.border, OpKind.ellipse, OpKind.caption, OpKind.fill, OpKind.fill,
        OpKind.fill, OpKind.fill, OpKind.fill] ∧
    ([OpKind.border, OpKind.ellipse, OpKind.caption, OpKind.fill, OpKind.fill,
        OpKind.fill, OpKind.fill, OpKind.fill].getLast? ≠ some OpKind.caption) := by
  decide

/-- C9 (amended): every successful `create_test_image` call draws, in order,
the border rectangle, the inner ellipse, the centered caption text, and then
the five random filled rectangles (the caption precedes the random
rectangles, which are the last elements drawn). -/
theorem c9_draw_order_amended (tb : TB) (fn txt : String) (w h : Nat)
    (cs : Option Scheme) (s : MTState) (img : ImageTrace) (s' : MTState)
    (hc : create_test_image tb fn txt w h cs s = some (img, s')) :
    img.ops.map kindOf = [OpKind.border, OpKind.ellipse, OpKind.caption, OpKind.fill,
      OpKind.fill, OpKind.fill, OpKind.fill, OpKind.fill] := by
  unfold create_test_image at hc
  cases hr : randomRects w h s 5 with
  | none => rw [hr] at hc; simp at hc
  | some p =>
    rw [hr] at hc
    simp only [Option.map_some'] at hc
    obtain rfl : img = _ := (congrArg Prod.fst (Option.some.inj hc)).symm
    have hlen := randomRects_length w h 5 s p.1 p.2 (by rw [hr, Prod.mk.eta])
    simp only [List.map_append, map_kindOf_fill, hlen]
    simp [kindOf, List.replicate_succ]

/-- C9 amended witness: the draw order at the all-zero generator state. -/
theorem c9_draw_order_amended_witness :
    trivImage.ops.map kindOf = [OpKind.border, OpKind.ellipse, OpKind.caption,
      OpKind.fill, OpKind.fill, OpKind.fill, OpKind.fill, OpKind.fill] := by
  exact c9_draw_order_amended tbZero ("f") ("t") 400 300 none (MTState.mk 0 0)
    trivImage (MTState.mk 0 20) (by decide)

namespace Runner

/-- `spawns` distributes over concatenation. -/
theorem spawns_append (a b : List REff) : spawns (a ++ b) = spawns a ++ spawns b :=
  List.filterMap_append a b _

/-- `removals` distributes over concatenation. -/
theorem removals_append (a b : List REff) : removals (a ++ b) = removals a ++ removals b :=
  List.filterMap_append a b _

/-- The banner spawns nothing. -/
theorem spawns_banner : spawns banner = [] := rfl

/-- The epilogue spawns nothing. -/
theorem spawns_epilogue (b : Bool) : spawns (epilogue b).1 = [] := by
  cases b <;> rfl

/-- One `run_scenario` call spawns exactly one generator child, for its own
scenario, whatever the filesystem state and child outcome. -/
theorem spawns_run_scenario (w : World) (name : String) :
    spawns (run_scenario w name).1 = [name] := by
  unfold run_scenario
  dsimp only
  split_ifs <;>
    first
      | (split <;> simp [spawns, List.filterMap_append, List.filterMap])
      | simp [spawns, List.filterMap_append, List.filterMap]

/-- `run_scenario` reports success exactly when the child exited 0. -/
theorem ok_run_scenario (w : World) (name : String) :
    (run_scenario w name).2 = ((w.genResult name).returncode == 0) := by
  by_cases hrc : (w.genResult name).returncode = 0
  · simp [run_scenario, hrc]
  · simp [run_scenario, hrc, beq_eq_false_iff_ne.mpr hrc]

/-- The epilogue's exit status. -/
theorem epilogue_code (b : Bool) : (epilogue b).2 = if b then 0 else 1 := by
  cases b <;> rfl

end Runner

/-- C5: invoked with no arguments, the Scenario Runner spawns the generator
for `baseline`, `changed` and `mixed` in that order — a failure never stops
the later scenarios, all three children are always spawned — and the process
exits 0 exactly when all three children exited 0, and 1 otherwise. -/
theorem c5_runner_no_args_all_scenarios (w : World) :
    spawns (runner_main w ["test_scenarios.py"]).1 = ["baseline", "changed", "mixed"] ∧
    (runner_main w ["test_scenarios.py"]).2 =
      (if (w.genResult ("baseline")).returncode = 0 ∧
          (w.genResult ("changed")).returncode = 0 ∧
          (w.genResult ("mixed")).returncode = 0 then 0 else 1) := by
  have hlen : ¬ (([("test_scenarios.py" : String)].length) > 1) := by decide
  constructor
  · simp only [runner_main, if_neg hlen, spawns_append, spawns_banner, spawns_epilogue,
      runAll, allScenarios, spawns_run_scenario]
    rfl
  · simp only [runner_main, if_neg hlen, runAll, allScenarios, ok_run_scenario,
      epilogue_code]
    by_cases h1 : (w.genResult ("baseline")).returncode = 0 <;>
      by_cases h2 : (w.genResult ("changed")).returncode = 0 <;>
      by_cases h3 : (w.genResult ("mixed")).returncode = 0 <;>
      simp [h1, h2, h3]

/-- C6: invoked with an argument that is not a scenario name, the runner's
whole observable behavior is one console line listing the valid choices and
exit status 1: no directory is deleted, no child is spawned, and no output
file can have been created. -/
theorem c6_runner_invalid_arg_rejected (w : World) (a : String) (ha : a ∉ allScenarios) :
    runner_main w ["test_scenarios.py", a] =
      ([REff.consoleLine ("Invalid scenario. Choose from: " ++ pyListRepr allScenarios)], 1) ∧
    removals (runner_main w ["test_scenarios.py", a]).1 = [] ∧
    spawns (runner_main w ["test_scenarios.py", a]).1 = [] := by
  simp only [allScenarios, List.mem_cons, List.not_mem_nil, or_false, not_or] at ha
  obtain ⟨h1, h2, h3⟩ := ha
  refine ⟨?_, ?_, ?_⟩ <;>
    simp [runner_main, allScenarios, h1, h2, h3, removals, spawns, List.filterMap]

/-- C6 witness: the unrecognized argument `bogus` is rejected with exit 1 and
an empty effect trace apart from the error line. -/
theorem c6_runner_invalid_arg_rejected_witness :
    runner_main trivWorld ["test_scenarios.py", "bogus"] =
      ([REff.consoleLine ("Invalid scenario. Choose from: " ++ pyListRepr allScenarios)], 1) ∧
    removals (runner_main trivWorld ["test_scenarios.py", "bogus"]).1 = [] ∧
    spawns (runner_main trivWorld ["test_scenarios.py", "bogus"]).1 = [] :=
  c6_runner_invalid_arg_rejected trivWorld ("bogus") (by decide)
